import Mathlib

/-!
Verification development for the EskomSmartGridCenterUKZN PV analysis scripts.

The repository computes, from a 5-minute weather/irradiance time series:
 - two irradiance-to-AC-power models per rooftop segment ("pvlib" Model A and
   "OSM-MEPS" Model B), summed over five segments into system power traces
   (`Aurora_PVlib_OSMMEPS_PVwatts.py`, `RampRate_W_per_s_SMARTGrid.py`,
   `ANNUAL_ENERGY_PRODUCTION_graphs_and_SUMMARY.py`);
 - energy integration (per-sample kWh, daily resample, annual total);
 - ramp rates (W/s), the maximum 5-minute power swing, and battery sizing.

This file is a shallow embedding of those computations.  Pure per-sample model
arithmetic is embedded over `ℝ` (the source uses transcendental functions);
the series-level analytics (energy aggregation, ramp rate, swing, battery
sizing) are embedded executably over `ℚ`.  IEEE special values produced by the
pandas arithmetic (NaN from `diff()` at the first row, infinities from
division by a zero time step) are modelled explicitly by the type `FP`.
-/

namespace SmartGrid

/-- One row of the weather CSV, after the scripts default every missing
required column to zero.  Fields are the ten columns the scripts read. -/
structure WeatherSample where
  dni : ℝ
  ghi : ℝ
  dhi : ℝ
  air_temp : ℝ
  albedo : ℝ
  zenith : ℝ
  azimuth : ℝ
  cloud_opacity : ℝ
  relative_humidity : ℝ
  wind_speed_10m : ℝ

/-- Solar position for a timestamp, as returned by the external
`pvlib.solarposition.get_solarposition` service (apparent zenith and
azimuth are the two fields the scripts consume). -/
structure SolarPosition where
  apparent_zenith : ℝ
  azimuth : ℝ

/-- One rooftop field segment: tilt (degrees), azimuth (degrees), module
count, exactly as in the `field_segments` dictionaries of the scripts. -/
structure RoofSegment where
  tilt : ℝ
  azimuth : ℝ
  num_modules : ℕ

/-- The five configured rooftop segments (identical in all three scripts). -/
def field_segments : List RoofSegment :=
  [⟨5.6, 319.88214, 32⟩,
   ⟨2.8, 146.61220, 32⟩,
   ⟨5.0, 326.42346, 32⟩,
   ⟨3.0, 315.20587, 32⟩,
   ⟨3.0, 134.65346, 64⟩]

/-- Module rated power, W (`panel_power_max = 600`). -/
noncomputable def panel_power_max : ℝ := 600

/-- Inverter efficiency (`inverter_efficiency = 0.95`). -/
noncomputable def inverter_efficiency : ℝ := 0.95

/-- Module temperature coefficient, 1/°C (`temp_coeff = -0.0045`). -/
noncomputable def temp_coeff : ℝ := -0.0045

/-- Standard test condition irradiance, W/m² (`stc_irradiance = 1000`). -/
noncomputable def stc_irradiance : ℝ := 1000

/-- `np.radians`: degrees to radians. -/
noncomputable def radians (d : ℝ) : ℝ := d * Real.pi / 180

/-- `np.degrees`: radians to degrees. -/
noncomputable def degrees (r : ℝ) : ℝ := r * 180 / Real.pi

/-! ## Model B ("OSM-MEPS") per-segment plane-of-array chain

The formulas below appear identically in all three scripts
(`Aurora_PVlib_OSMMEPS_PVwatts.py` lines 90-101,
`RampRate_W_per_s_SMARTGrid.py` lines 76-93,
`ANNUAL_ENERGY_PRODUCTION_graphs_and_SUMMARY.py` lines 81-98). -/

/-- Angle of incidence (degrees) via the spherical law of cosines, then
`np.clip(aoi, 0, 90)`. -/
noncomputable def aoi_osm (seg : RoofSegment) (s : WeatherSample) : ℝ :=
  min 90 (max 0 (degrees (Real.arccos
    (Real.cos (radians s.zenith) * Real.cos (radians seg.tilt) +
     Real.sin (radians s.zenith) * Real.sin (radians seg.tilt) *
       Real.cos (radians s.azimuth - radians seg.azimuth)))))

/-- `poa_direct = dni * cos(radians(aoi)) * (1 - cloud_opacity/100)` followed
by `.clip(lower=0)`. -/
noncomputable def poa_direct_osm (seg : RoofSegment) (s : WeatherSample) : ℝ :=
  max 0 (s.dni * Real.cos (radians (aoi_osm seg s)) * (1 - s.cloud_opacity / 100))

/-- `poa_diffuse = dhi * (1 + cos(tilt_rad)) / 2`. -/
noncomputable def poa_diffuse_osm (seg : RoofSegment) (s : WeatherSample) : ℝ :=
  s.dhi * (1 + Real.cos (radians seg.tilt)) / 2

/-- `poa_reflected = ghi * albedo * (1 - cos(tilt_rad)) / 2`. -/
noncomputable def poa_reflected_osm (seg : RoofSegment) (s : WeatherSample) : ℝ :=
  s.ghi * s.albedo * (1 - Real.cos (radians seg.tilt)) / 2

/-- `poa_total = poa_direct + poa_diffuse + poa_reflected`. -/
noncomputable def poa_total_osm (seg : RoofSegment) (s : WeatherSample) : ℝ :=
  poa_direct_osm seg s + poa_diffuse_osm seg s + poa_reflected_osm seg s

/-- `module_temp = 45 + poa_total/1000 * (28 - air_temp)` (Model B thermal
model, identical in all three scripts). -/
noncomputable def module_temp (poa_total air_temp : ℝ) : ℝ :=
  45 + poa_total / 1000 * (28 - air_temp)

/-! ## External pvlib functions used by Model A and the PVWatts model

These are third-party library functions, not part of the repository sources.
They are modelled from the spec. -/

/-- Modelled from the spec: `pvlib.irradiance.get_total_irradiance` with its
default isotropic sky model and default surface albedo 0.25 (the call sites
pass no albedo).  It decomposes total POA into a beam component
`dni * cos(aoi)` floored at 0, an isotropic sky-diffuse component and a
ground-reflected component, returning `poa_global`, their sum.  The cosine of
the angle of incidence is the spherical-law-of-cosines projection, clipped to
[-1, 1]. -/
noncomputable def get_total_irradiance (surface_tilt surface_azimuth dni ghi dhi
    solar_zenith solar_azimuth : ℝ) : ℝ :=
  max 0 (dni * min 1 (max (-1)
      (Real.cos (radians solar_zenith) * Real.cos (radians surface_tilt) +
        Real.sin (radians solar_zenith) * Real.sin (radians surface_tilt) *
          Real.cos (radians (solar_azimuth - surface_azimuth))))) +
    dhi * (1 + Real.cos (radians surface_tilt)) / 2 +
    ghi * 0.25 * (1 - Real.cos (radians surface_tilt)) / 2

/-- Modelled from the spec: `pvlib.temperature.sapm_cell`, the empirical
convective-cooling cell-temperature model
`T_cell = poa * exp(a + b*wind) + air_temp + poa/1000 * deltaT` with
mount-dependent coefficients `a`, `b`, `deltaT`. -/
noncomputable def sapm_cell (poa_global temp_air wind_speed a b deltaT : ℝ) : ℝ :=
  poa_global * Real.exp (a + b * wind_speed) + temp_air + poa_global / 1000 * deltaT

/-- Modelled from the spec: `pvlib.pvsystem.pvwatts_dc`, the PVWatts DC model
`P_dc = (G_poa * 0.001) * pdc0 * (1 + gamma_pdc * (T_cell - temp_ref))`. -/
noncomputable def pvwatts_dc (g_poa_effective temp_cell pdc0 gamma_pdc temp_ref : ℝ) : ℝ :=
  g_poa_effective * 0.001 * pdc0 * (1 + gamma_pdc * (temp_cell - temp_ref))

/-! ## `Aurora_PVlib_OSMMEPS_PVwatts.py` (lines 64-112) -/

namespace Aurora

/-- Model A plane-of-array irradiance for one segment (line 72-81). -/
noncomputable def poa_irradiance (seg : RoofSegment) (s : WeatherSample)
    (sp : SolarPosition) : ℝ :=
  get_total_irradiance seg.tilt seg.azimuth s.dni s.ghi s.dhi
    sp.apparent_zenith sp.azimuth

/-- Model A cell temperature (line 82), coefficients `(-2.98, -0.0471, 1)`. -/
noncomputable def temp_cell (seg : RoofSegment) (s : WeatherSample)
    (sp : SolarPosition) : ℝ :=
  sapm_cell (poa_irradiance seg s sp) s.air_temp s.wind_speed_10m
    (-2.98) (-0.0471) 1

/-- Model A DC power per segment (line 85). -/
noncomputable def dc_power_pvlib (seg : RoofSegment) (s : WeatherSample)
    (sp : SolarPosition) : ℝ :=
  poa_irradiance seg s sp / stc_irradiance * panel_power_max *
    (seg.num_modules : ℝ) * (1 + temp_coeff * (temp_cell seg s sp - 25))

/-- Model A AC power per segment (line 86). -/
noncomputable def ac_power_pvlib (seg : RoofSegment) (s : WeatherSample)
    (sp : SolarPosition) : ℝ :=
  dc_power_pvlib seg s sp * inverter_efficiency

/-- Model B DC power per segment (line 104); the module count is applied
inside the DC term in this script. -/
noncomputable def dc_power_osm (seg : RoofSegment) (s : WeatherSample) : ℝ :=
  panel_power_max * (seg.num_modules : ℝ) *
    (1 + temp_coeff * (module_temp (poa_total_osm seg s) s.air_temp - 45)) *
    poa_total_osm seg s / stc_irradiance * (1 - 0.002 * s.relative_humidity)

/-- Model B AC power per segment (line 105): `dc_power_osm *
inverter_efficiency`, with no further loss factor in this script. -/
noncomputable def ac_power_osm (seg : RoofSegment) (s : WeatherSample) : ℝ :=
  dc_power_osm seg s * inverter_efficiency

/-- PVWatts DC power per segment (line 110). -/
noncomputable def dc_power_pvwatts (seg : RoofSegment) (s : WeatherSample)
    (sp : SolarPosition) : ℝ :=
  pvwatts_dc (poa_irradiance seg s sp) (temp_cell seg s sp)
    (panel_power_max * (seg.num_modules : ℝ)) temp_coeff 25

/-- PVWatts AC power per segment (line 111): 1% system losses applied. -/
noncomputable def ac_power_pvwatts (seg : RoofSegment) (s : WeatherSample)
    (sp : SolarPosition) : ℝ :=
  dc_power_pvwatts seg s sp * inverter_efficiency * (1 - 0.01)

/-- System-level Model A power trace value, kW (line 87 accumulated over the
five segments). -/
noncomputable def pvlibTotal (s : WeatherSample) (sp : SolarPosition) : ℝ :=
  (field_segments.map (fun seg => ac_power_pvlib seg s sp / 1000)).sum

/-- System-level Model B power trace value, kW (line 106). -/
noncomputable def osmTotal (s : WeatherSample) : ℝ :=
  (field_segments.map (fun seg => ac_power_osm seg s / 1000)).sum

/-- System-level PVWatts power trace value, kW (line 112). -/
noncomputable def pvwattsTotal (s : WeatherSample) (sp : SolarPosition) : ℝ :=
  (field_segments.map (fun seg => ac_power_pvwatts seg s sp / 1000)).sum

end Aurora

/-! ## `RampRate_W_per_s_SMARTGrid.py` (lines 52-100) -/

namespace RampRate

/-- Model B DC power per module (lines 94-96). -/
noncomputable def dc_power_osm (seg : RoofSegment) (s : WeatherSample) : ℝ :=
  panel_power_max *
      (1 + temp_coeff * (module_temp (poa_total_osm seg s) s.air_temp - 45)) *
    (poa_total_osm seg s / stc_irradiance) *
    (1 - 0.002 * s.relative_humidity)

/-- Model B AC power per module (line 97). -/
noncomputable def ac_power_osm (seg : RoofSegment) (s : WeatherSample) : ℝ :=
  dc_power_osm seg s * inverter_efficiency

/-- `scaled_power = ac_power_osm * num_panels` (line 98). -/
noncomputable def scaled_power (seg : RoofSegment) (s : WeatherSample) : ℝ :=
  ac_power_osm seg s * (seg.num_modules : ℝ)

/-- `actual_power = scaled_power * (1 - 0.01)` (line 99): the 1% system loss
is applied in this script. -/
noncomputable def actual_power (seg : RoofSegment) (s : WeatherSample) : ℝ :=
  scaled_power seg s * (1 - 0.01)

/-- System-level Model B power trace value, kW (line 100). -/
noncomputable def osmTotal (s : WeatherSample) : ℝ :=
  (field_segments.map (fun seg => actual_power seg s / 1000)).sum

end RampRate

/-! ## `ANNUAL_ENERGY_PRODUCTION_graphs_and_SUMMARY.py` (lines 55-106) -/

namespace AnnualEnergy

/-- Model B DC power per module (lines 99-101), identical to the ramp-rate
script. -/
noncomputable def dc_power_osm (seg : RoofSegment) (s : WeatherSample) : ℝ :=
  panel_power_max *
      (1 + temp_coeff * (module_temp (poa_total_osm seg s) s.air_temp - 45)) *
    (poa_total_osm seg s / stc_irradiance) *
    (1 - 0.002 * s.relative_humidity)

/-- Model B AC power per module (line 103). -/
noncomputable def ac_power_osm (seg : RoofSegment) (s : WeatherSample) : ℝ :=
  dc_power_osm seg s * inverter_efficiency

/-- `scaled_power = ac_power_osm * num_panels` (line 104). -/
noncomputable def scaled_power (seg : RoofSegment) (s : WeatherSample) : ℝ :=
  ac_power_osm seg s * (seg.num_modules : ℝ)

/-- `actual_power = scaled_power * (1 - 0.01)` (line 105): 1% system loss. -/
noncomputable def actual_power (seg : RoofSegment) (s : WeatherSample) : ℝ :=
  scaled_power seg s * (1 - 0.01)

/-- System-level Model B power trace value, kW (line 106). -/
noncomputable def osmTotal (s : WeatherSample) : ℝ :=
  (field_segments.map (fun seg => actual_power seg s / 1000)).sum

end AnnualEnergy

/-! ## IEEE-style values for the pandas series arithmetic

`Series.diff()` places NaN at the first row; dividing a finite value by a
zero elapsed time yields ±infinity, and 0/0 yields NaN.  No exception is
raised by any of these operations.  `FP` models exactly this value domain
over exact rationals. -/

/-- A pandas/numpy float64 cell: finite (exact rational), NaN, or ±infinity. -/
inductive FP where
  | nan : FP
  | inf : FP
  | neginf : FP
  | fin : ℚ → FP
deriving DecidableEq

namespace FP

/-- IEEE multiplication on `FP` (signed zeros collapsed to 0). -/
def mul : FP → FP → FP
  | nan, _ => nan
  | _, nan => nan
  | fin a, fin b => fin (a * b)
  | inf, fin b => if 0 < b then inf else if b < 0 then neginf else nan
  | fin a, inf => if 0 < a then inf else if a < 0 then neginf else nan
  | neginf, fin b => if 0 < b then neginf else if b < 0 then inf else nan
  | fin a, neginf => if 0 < a then neginf else if a < 0 then inf else nan
  | inf, inf => inf
  | inf, neginf => neginf
  | neginf, inf => neginf
  | neginf, neginf => inf

/-- IEEE division on `FP` (signed zeros collapsed to 0, so a finite value
divided by an infinity is 0, and division by zero uses the numerator's
sign). -/
def div : FP → FP → FP
  | nan, _ => nan
  | _, nan => nan
  | fin a, fin b =>
      if b = 0 then (if a = 0 then nan else if 0 < a then inf else neginf)
      else fin (a / b)
  | inf, fin b => if b < 0 then neginf else inf
  | neginf, fin b => if b < 0 then inf else neginf
  | fin _, inf => fin 0
  | fin _, neginf => fin 0
  | inf, inf => nan
  | inf, neginf => nan
  | neginf, inf => nan
  | neginf, neginf => nan

end FP

/-! ## Ramp & Swing Analyzer (`RampRate_W_per_s_SMARTGrid.py` lines 135-190)

A power series is a list of `(timestamp in seconds, power in kW)` pairs, both
exact rationals (the index is sorted by line 135; the power values produced
upstream are finite). -/

/-- `df.index.to_series().diff().dt.total_seconds().fillna(0)` (line 138):
elapsed seconds to the predecessor, with the first row's NaN replaced by 0. -/
def time_diff_s : List ℚ → List ℚ
  | [] => []
  | t :: rest => 0 :: List.zipWith (fun a b => b - a) (t :: rest) rest

/-- `power.diff()` (lines 141-142): consecutive power differences, NaN at the
first row. -/
def power_diff : List ℚ → List FP
  | [] => []
  | p :: rest => FP.nan :: List.zipWith (fun a b => FP.fin (b - a)) (p :: rest) rest

/-- `Ramp_W_per_s = power.diff() * 1000 / time_diff_s` (lines 141-142),
pointwise over the series. -/
def ramp_W_per_s (series : List (ℚ × ℚ)) : List FP :=
  List.zipWith (fun d t => FP.div (FP.mul d (FP.fin 1000)) (FP.fin t))
    (power_diff (series.map Prod.snd)) (time_diff_s (series.map Prod.fst))

/-- `power.diff().abs()` restricted to its valid (non-NaN) entries: the
absolute consecutive-sample differences (line 173). -/
def abs_diffs (ps : List ℚ) : List ℚ :=
  List.zipWith (fun a b => |b - a|) ps ps.tail

/-- `Series.idxmax` over a list whose first element carries index `k`:
returns the index and value of the first occurrence of the maximum, or
`none` when there is no valid entry (pandas raises `ValueError` on an empty
sequence and propagates NaN on an all-NaN one; both are modelled by
`none`). -/
def idxmaxFrom : List ℚ → ℕ → Option (ℕ × ℚ)
  | [], _ => none
  | x :: xs, k =>
    match idxmaxFrom xs (k + 1) with
    | none => some (k, x)
    | some (j, m) => if m > x then some (j, m) else some (k, x)

/-- The SwingEvent of a power series (lines 173-174):
`diff().abs().max()` together with `diff().abs().idxmax()`.  The returned
index is the position of the later of the two consecutive samples (pandas
labels the difference with that row's timestamp); the first difference sits
at position 1. -/
def max_swing (ps : List ℚ) : Option (ℕ × ℚ) :=
  idxmaxFrom (abs_diffs ps) 1

/-! ## Grid-Impact Advisor battery sizing
(`RampRate_W_per_s_SMARTGrid.py` lines 179-180 and 380-381) -/

/-- `battery_power_rating_osm = max_power_swing_5min_osm * 1.2` (line 179). -/
def battery_power_rating (max_power_swing_5min : ℚ) : ℚ :=
  max_power_swing_5min * 1.2

/-- `recommended_energy_osm = battery_power_rating_osm * 2.0` (line 180). -/
def recommended_energy (max_power_swing_5min : ℚ) : ℚ :=
  battery_power_rating max_power_swing_5min * 2.0

/-- `battery_coverage = battery_power_rating_osm / max_power_swing_5min_osm *
100` (line 380). -/
def battery_coverage (max_power_swing_5min : ℚ) : ℚ :=
  battery_power_rating max_power_swing_5min / max_power_swing_5min * 100

/-- `margin = battery_coverage - 100` (line 381). -/
def battery_margin (max_power_swing_5min : ℚ) : ℚ :=
  battery_coverage max_power_swing_5min - 100

/-! ## Energy Aggregator
(`ANNUAL_ENERGY_PRODUCTION_graphs_and_SUMMARY.py` lines 109-116,
`Aurora_PVlib_OSMMEPS_PVwatts.py` lines 114-130)

A sample is a `(calendar-day key, power in kW)` pair; the day key stands for
the local-timezone calendar day used by `resample('D')`. -/

/-- Per-sample energy, kWh: `power * (5/60)` (lines 109-110). -/
def sample_energy (power_kW : ℚ) : ℚ := power_kW * (5 / 60)

/-- The distinct calendar days present in the series (the day buckets of
`resample('D')` that receive at least one sample). -/
def day_keys (samples : List (ℤ × ℚ)) : List ℤ :=
  (samples.map Prod.fst).dedup

/-- `resample('D').sum()` (lines 112-113): per-day sums of sample energy. -/
def daily_energy (samples : List (ℤ × ℚ)) : List (ℤ × ℚ) :=
  (day_keys samples).map (fun d =>
    (d, ((samples.filter (fun s => decide (s.1 = d))).map
      (fun s => sample_energy s.2)).sum))

/-- `daily_energy.sum()` (lines 115-116): the annual energy total. -/
def annual_energy (samples : List (ℤ × ℚ)) : ℚ :=
  ((daily_energy samples).map Prod.snd).sum

/-! ## Helper lemmas -/

/-- The ramp-rate script's per-segment OSM-MEPS AC power equals the Aurora
script's per-segment OSM-MEPS AC power times the 1% loss factor. -/
theorem rampRate_actual_eq_aurora (seg : RoofSegment) (s : WeatherSample) :
    RampRate.actual_power seg s = Aurora.ac_power_osm seg s * (1 - 0.01) := by
  unfold RampRate.actual_power RampRate.scaled_power RampRate.ac_power_osm
    RampRate.dc_power_osm Aurora.ac_power_osm Aurora.dc_power_osm
  ring

/-! ## Claim theorems -/

/-- C4: Battery sizing is the exact pure function of the SwingEvent: the
power rating is 1.2 times the swing magnitude, the energy capacity is 2.0
times the power rating (hence 2.4 times the swing), and for every positive
swing the coverage ratio is exactly 120%, i.e. a +20% margin. -/
theorem C4_battery_sizing_exact (s : ℚ) :
    battery_power_rating s = s * 1.2 ∧
    recommended_energy s = battery_power_rating s * 2.0 ∧
    recommended_energy s = 2.4 * s ∧
    (0 < s → battery_coverage s = 120 ∧ battery_margin s = 20) := by
  refine ⟨rfl, rfl, by unfold recommended_energy battery_power_rating; ring,
    fun hs => ?_⟩
  have hne : s ≠ 0 := ne_of_gt hs
  have hcov : battery_coverage s = 120 := by
    unfold battery_coverage battery_power_rating
    field_simp
    ring
  exact ⟨hcov, by unfold battery_margin; rw [hcov]; norm_num⟩

/-- Witness for C4 at the concrete swing 5 kW. -/
theorem C4_battery_sizing_exact_witness :
    (0 : ℚ) < 5 ∧ battery_coverage 5 = 120 ∧ battery_margin 5 = 20 :=
  ⟨by norm_num, ((C4_battery_sizing_exact 5).2.2.2 (by norm_num)).1,
    ((C4_battery_sizing_exact 5).2.2.2 (by norm_num)).2⟩

/-- C10: Model B's module temperature `45 + (POA/1000) * (28 - air_temp)` is
45°C exactly at POA = 0 for every air temperature; for every fixed air
temperature above 28°C it is strictly decreasing in POA and never exceeds
45°C on nonnegative POA; and it is strictly increasing in POA only when the
air temperature is below 28°C. -/
theorem C10_module_temp_monotonicity (air_temp : ℝ) :
    module_temp 0 air_temp = 45 ∧
    (28 < air_temp →
      (∀ p1 p2 : ℝ, p1 < p2 → module_temp p2 air_temp < module_temp p1 air_temp) ∧
      (∀ p : ℝ, 0 ≤ p → module_temp p air_temp ≤ 45)) ∧
    ((∀ p1 p2 : ℝ, p1 < p2 → module_temp p1 air_temp < module_temp p2 air_temp) →
      air_temp < 28) := by
  refine ⟨by simp [module_temp], fun h => ⟨fun p1 p2 hp => ?_, fun p hp => ?_⟩,
    fun H => ?_⟩
  · unfold module_temp
    nlinarith
  · unfold module_temp
    nlinarith
  · have h0 := H 0 1000 (by norm_num)
    unfold module_temp at h0
    nlinarith

/-- Witness for C10 at air temperature 30°C and concrete POA values. -/
theorem C10_module_temp_monotonicity_witness :
    (28 : ℝ) < 30 ∧ module_temp 0 30 = 45 ∧
    module_temp 200 30 < module_temp 100 30 ∧ module_temp 500 30 ≤ 45 :=
  ⟨by norm_num, (C10_module_temp_monotonicity 30).1,
    ((C10_module_temp_monotonicity 30).2.1 (by norm_num)).1 100 200 (by norm_num),
    ((C10_module_temp_monotonicity 30).2.1 (by norm_num)).2 500 (by norm_num)⟩

/-- C9: the PVWatts model is a rescaling of Model A: per segment and sample,
`pvwatts_dc` at `pdc0 = rated_power × module_count`, `gamma_pdc = -0.0045`,
`temp_ref = 25` coincides with the hand-written Model A DC formula, so the
PVWatts AC trace equals the Model A AC trace times the constant 0.99,
per segment and at the system level. -/
theorem C9_pvwatts_is_rescaled_pvlib (seg : RoofSegment) (s : WeatherSample)
    (sp : SolarPosition) :
    Aurora.dc_power_pvwatts seg s sp = Aurora.dc_power_pvlib seg s sp ∧
    Aurora.ac_power_pvwatts seg s sp = Aurora.ac_power_pvlib seg s sp * 0.99 ∧
    Aurora.pvwattsTotal s sp = 0.99 * Aurora.pvlibTotal s sp := by
  have hdc : ∀ seg : RoofSegment,
      Aurora.dc_power_pvwatts seg s sp = Aurora.dc_power_pvlib seg s sp := by
    intro seg
    unfold Aurora.dc_power_pvwatts Aurora.dc_power_pvlib pvwatts_dc stc_irradiance
    ring
  have hac : ∀ seg : RoofSegment,
      Aurora.ac_power_pvwatts seg s sp = Aurora.ac_power_pvlib seg s sp * 0.99 := by
    intro seg
    unfold Aurora.ac_power_pvwatts Aurora.ac_power_pvlib
    rw [hdc]
    ring
  refine ⟨hdc seg, hac seg, ?_⟩
  unfold Aurora.pvwattsTotal Aurora.pvlibTotal field_segments
  simp only [List.map_cons, List.map_nil, List.sum_cons, List.sum_nil]
  rw [hac, hac, hac, hac, hac]
  ring

/-- C6: with 100% cloud opacity Model B's direct POA component is exactly
zero regardless of DNI; and Model A's system power trace does not depend on
the cloud-opacity field: changing only that field leaves the trace
unchanged. -/
theorem C6_cloud_opacity_divergence (seg : RoofSegment) (s : WeatherSample)
    (c : ℝ) (sp : SolarPosition) :
    (s.cloud_opacity = 100 → poa_direct_osm seg s = 0) ∧
    Aurora.pvlibTotal { s with cloud_opacity := c } sp = Aurora.pvlibTotal s sp := by
  refine ⟨fun h => ?_, rfl⟩
  unfold poa_direct_osm
  rw [h]
  norm_num

/-- Witness for C6 at a concrete segment, sample with opacity 100 and
nonzero DNI, and opacity change to 37. -/
theorem C6_cloud_opacity_divergence_witness :
    ((⟨800, 0, 0, 0, 0, 0, 0, 100, 0, 0⟩ : WeatherSample).cloud_opacity = 100) ∧
    poa_direct_osm ⟨5.6, 319.88214, 32⟩ ⟨800, 0, 0, 0, 0, 0, 0, 100, 0, 0⟩ = 0 ∧
    Aurora.pvlibTotal
        { (⟨800, 0, 0, 0, 0, 0, 0, 100, 0, 0⟩ : WeatherSample) with cloud_opacity := 37 }
        ⟨0, 0⟩ =
      Aurora.pvlibTotal ⟨800, 0, 0, 0, 0, 0, 0, 100, 0, 0⟩ ⟨0, 0⟩ :=
  ⟨rfl,
    (C6_cloud_opacity_divergence ⟨5.6, 319.88214, 32⟩ ⟨800, 0, 0, 0, 0, 0, 0, 100, 0, 0⟩
      37 ⟨0, 0⟩).1 rfl,
    (C6_cloud_opacity_divergence ⟨5.6, 319.88214, 32⟩ ⟨800, 0, 0, 0, 0, 0, 0, 100, 0, 0⟩
      37 ⟨0, 0⟩).2⟩

/-- C2 (counterexample): in `Aurora_PVlib_OSMMEPS_PVwatts.py` (line 105) the
OSM-MEPS AC power is DC power times inverter efficiency with no 1% system
loss, so at a concrete segment and sample with nonzero diffuse irradiance the
claimed identity `ac = dc × η × (1 - 0.01)` fails. -/
theorem C2_osm_loss_factor_counterexample :
    Aurora.ac_power_osm ⟨5.6, 319.88214, 32⟩ ⟨0, 0, 1000, 28, 0, 0, 0, 0, 0, 0⟩ ≠
      Aurora.dc_power_osm ⟨5.6, 319.88214, 32⟩ ⟨0, 0, 1000, 28, 0, 0, 0, 0, 0, 0⟩ *
        inverter_efficiency * (1 - 0.01) := by
  have hpi := Real.pi_pos
  have hc : 0 < Real.cos (radians 5.6) := by
    apply Real.cos_pos_of_mem_Ioo
    constructor
    · unfold radians
      nlinarith
    · unfold radians
      nlinarith
  have hP : poa_total_osm ⟨5.6, 319.88214, 32⟩ ⟨0, 0, 1000, 28, 0, 0, 0, 0, 0, 0⟩ =
      1000 * (1 + Real.cos (radians 5.6)) / 2 := by
    unfold poa_total_osm poa_direct_osm poa_diffuse_osm poa_reflected_osm
    norm_num
  have hdc : Aurora.dc_power_osm ⟨5.6, 319.88214, 32⟩ ⟨0, 0, 1000, 28, 0, 0, 0, 0, 0, 0⟩ =
      600 * 32 * (1000 * (1 + Real.cos (radians 5.6)) / 2) / 1000 := by
    unfold Aurora.dc_power_osm panel_power_max temp_coeff stc_irradiance module_temp
    rw [hP]
    norm_num
  intro h
  unfold Aurora.ac_power_osm inverter_efficiency at h
  rw [hdc] at h
  nlinarith [hc, h]

/-- C2 (amended): the 1% system-loss factor is applied in the ramp-rate and
annual-energy analyses (per segment, AC = DC × η × module_count ×
(1 - 0.01)), and those two analyses produce identical OSM-MEPS traces; the
Aurora comparison analysis omits the factor, so its OSM-MEPS trace equals
the other analyses' trace divided by 0.99 rather than being identical. -/
theorem C2_osm_loss_factor_amended (seg : RoofSegment) (s : WeatherSample) :
    RampRate.actual_power seg s =
      RampRate.dc_power_osm seg s * inverter_efficiency * (seg.num_modules : ℝ) *
        (1 - 0.01) ∧
    AnnualEnergy.actual_power seg s = RampRate.actual_power seg s ∧
    AnnualEnergy.osmTotal s = RampRate.osmTotal s ∧
    RampRate.actual_power seg s = Aurora.ac_power_osm seg s * (1 - 0.01) ∧
    RampRate.osmTotal s = 0.99 * Aurora.osmTotal s := by
  refine ⟨?_, rfl, rfl, rampRate_actual_eq_aurora seg s, ?_⟩
  · unfold RampRate.actual_power RampRate.scaled_power RampRate.ac_power_osm
    ring
  · unfold RampRate.osmTotal Aurora.osmTotal field_segments
    simp only [List.map_cons, List.map_nil, List.sum_cons, List.sum_nil]
    rw [rampRate_actual_eq_aurora, rampRate_actual_eq_aurora, rampRate_actual_eq_aurora,
      rampRate_actual_eq_aurora, rampRate_actual_eq_aurora]
    ring

/-- C1: evaluation of the ramp-rate computation at its boundary cases.  On a
single-sample series the ramp value is NaN (the NaN numerator from `diff()`
divided by the zero elapsed time), and at a duplicate timestamp with a power
step of 2 kW the ramp value is +∞ (2000/0); neither is the finite 0 the
spec requires. -/
theorem C1_ramp_zero_elapsed_code_eval :
    ramp_W_per_s [(0, 5)] = [FP.nan] ∧
    ramp_W_per_s [(0, 5), (0, 7)] = [FP.nan, FP.inf] ∧
    FP.nan ≠ FP.fin 0 ∧ FP.inf ≠ FP.fin 0 := by
  refine ⟨?_, ?_, by simp, by simp⟩
  · norm_num [ramp_W_per_s, power_diff, time_diff_s, FP.mul, FP.div]
  · norm_num [ramp_W_per_s, power_diff, time_diff_s, FP.mul, FP.div]

/-- C7: evaluation of the aggregator and analyzer at the empty series.  The
Energy Aggregator returns an empty daily sequence and annual total 0, and
the ramp series is empty; but the SwingEvent computation has no value (its
`idxmax` raises on an empty sequence, modelled by `none`), so the analyzer
does not return a well-defined SwingEvent result. -/
theorem C7_empty_input_code_eval :
    daily_energy [] = [] ∧ annual_energy [] = 0 ∧
    ramp_W_per_s [] = [] ∧ max_swing ([] : List ℚ) = none := by
  refine ⟨?_, ?_, rfl, rfl⟩
  · simp [daily_energy, day_keys]
  · simp [annual_energy, daily_energy, day_keys]

/-- `idxmaxFrom` returns a value on every nonempty list. -/
theorem idxmaxFrom_ne_none (x : ℚ) (xs : List ℚ) (k : ℕ) :
    idxmaxFrom (x :: xs) k ≠ none := by
  unfold idxmaxFrom
  cases h : idxmaxFrom xs (k + 1) with
  | none => simp
  | some jm =>
    obtain ⟨j, m⟩ := jm
    by_cases hmx : m > x <;> simp [hmx]

/-- Specification of `idxmaxFrom`: the returned index is in range (offset by
the starting counter), the returned value sits at that index, and it bounds
every element of the list. -/
theorem idxmaxFrom_spec (xs : List ℚ) (k i : ℕ) (m : ℚ)
    (h : idxmaxFrom xs k = some (i, m)) :
    k ≤ i ∧ i - k < xs.length ∧ xs.getD (i - k) 0 = m ∧ ∀ d ∈ xs, d ≤ m := by
  induction xs generalizing k i m with
  | nil => simp [idxmaxFrom] at h
  | cons x xs ih =>
    rw [idxmaxFrom] at h
    cases hrec : idxmaxFrom xs (k + 1) with
    | none =>
      rw [hrec] at h
      simp only [Option.some.injEq, Prod.mk.injEq] at h
      obtain ⟨rfl, rfl⟩ := h
      have hxs : xs = [] := by
        cases xs with
        | nil => rfl
        | cons y ys => exact absurd hrec (idxmaxFrom_ne_none y ys (k + 1))
      subst hxs
      refine ⟨le_refl k, by simp, by simp, ?_⟩
      intro d hd
      simp only [List.mem_singleton] at hd
      subst hd
      exact le_refl d
    | some jm =>
      obtain ⟨j, m2⟩ := jm
      rw [hrec] at h
      dsimp only at h
      by_cases hmx : m2 > x
      · rw [if_pos hmx] at h
        obtain ⟨h1, h2, h3, h4⟩ := ih (k + 1) j m2 hrec
        simp only [Option.some.injEq, Prod.mk.injEq] at h
        obtain ⟨hji, hmm⟩ := h
        subst hji
        subst hmm
        refine ⟨by omega, ?_, ?_, ?_⟩
        · simp only [List.length_cons]
          omega
        · rw [show j - k = (j - (k + 1)) + 1 from by omega, List.getD_cons_succ]
          exact h3
        · intro d hd
          rcases List.mem_cons.mp hd with rfl | hd2
          · exact le_of_lt hmx
          · exact h4 d hd2
      · rw [if_neg hmx] at h
        simp only [Option.some.injEq, Prod.mk.injEq] at h
        obtain ⟨rfl, rfl⟩ := h
        obtain ⟨h1, h2, h3, h4⟩ := ih (k + 1) j m2 hrec
        push_neg at hmx
        refine ⟨le_refl k, by simp, by simp, ?_⟩
        intro d hd
        rcases List.mem_cons.mp hd with rfl | hd2
        · exact le_refl d
        · exact le_trans (h4 d hd2) hmx

/-- The list of absolute consecutive differences has one entry fewer than
the series. -/
theorem abs_diffs_length (ps : List ℚ) : (abs_diffs ps).length = ps.length - 1 := by
  cases ps with
  | nil => simp [abs_diffs]
  | cons p ps =>
    simp only [abs_diffs, List.length_zipWith, List.tail_cons, List.length_cons]
    omega

/-- Entry `k` of `abs_diffs` is the absolute difference between samples
`k + 1` and `k`. -/
theorem abs_diffs_getD (ps : List ℚ) (k : ℕ) (hk : k + 1 < ps.length) :
    (abs_diffs ps).getD k 0 = |ps.getD (k + 1) 0 - ps.getD k 0| := by
  have hlen : k < (abs_diffs ps).length := by
    rw [abs_diffs_length]
    omega
  have htail : k < ps.tail.length := by
    rw [List.length_tail]
    omega
  rw [List.getD_eq_getElem _ _ hlen,
    List.getD_eq_getElem _ _ (show k + 1 < ps.length by omega),
    List.getD_eq_getElem _ _ (show k < ps.length by omega)]
  unfold abs_diffs
  rw [List.getElem_zipWith]
  rw [List.getElem_tail]

/-- C3: whenever the series has at least two samples, the Ramp & Swing
Analyzer reports a SwingEvent whose index points at the later of two
consecutive samples, whose magnitude equals the absolute difference between
that sample and its predecessor, and whose magnitude bounds every other
absolute consecutive-sample difference in the series (maximality). -/
theorem C3_swing_event_maximality (ps : List ℚ) (h2 : 2 ≤ ps.length) :
    ∃ i m, max_swing ps = some (i, m) ∧ 1 ≤ i ∧ i < ps.length ∧
      m = |ps.getD i 0 - ps.getD (i - 1) 0| ∧ ∀ d ∈ abs_diffs ps, d ≤ m := by
  have hlen : (abs_diffs ps).length = ps.length - 1 := abs_diffs_length ps
  have hne : abs_diffs ps ≠ [] := by
    intro hnil
    rw [hnil] at hlen
    simp only [List.length_nil] at hlen
    omega
  obtain ⟨x, xs, hxxs⟩ := List.exists_cons_of_ne_nil hne
  cases hms : max_swing ps with
  | none =>
    exfalso
    unfold max_swing at hms
    rw [hxxs] at hms
    exact idxmaxFrom_ne_none x xs 1 hms
  | some im =>
    obtain ⟨i, m⟩ := im
    obtain ⟨h1, hlt, hget, hmax⟩ := idxmaxFrom_spec (abs_diffs ps) 1 i m hms
    rw [hlen] at hlt
    refine ⟨i, m, rfl, h1, by omega, ?_, hmax⟩
    have hk : i - 1 + 1 = i := by omega
    have hd := abs_diffs_getD ps (i - 1) (by omega)
    rw [hk] at hd
    rw [← hget, hd]

/-- Witness for C3 on the concrete three-sample series `[1, 4, 2]`. -/
theorem C3_swing_event_maximality_witness :
    2 ≤ ([1, 4, 2] : List ℚ).length ∧
    (∃ i m, max_swing ([1, 4, 2] : List ℚ) = some (i, m) ∧ 1 ≤ i ∧
      i < ([1, 4, 2] : List ℚ).length ∧
      m = |([1, 4, 2] : List ℚ).getD i 0 - ([1, 4, 2] : List ℚ).getD (i - 1) 0| ∧
      ∀ d ∈ abs_diffs ([1, 4, 2] : List ℚ), d ≤ m) :=
  ⟨by simp, C3_swing_event_maximality [1, 4, 2] (by simp)⟩

/-- Splitting a mapped sum over a filter and its complement. -/
theorem sum_map_filter_split (l : List (ℤ × ℚ)) (p : ℤ × ℚ → Bool) (f : ℤ × ℚ → ℚ) :
    ((l.filter p).map f).sum + ((l.filter (fun a => !p a)).map f).sum = (l.map f).sum := by
  induction l with
  | nil => simp
  | cons a l ih =>
    by_cases hp : p a
    · rw [List.filter_cons_of_pos hp, List.filter_cons_of_neg (by simp [hp])]
      simp only [List.map_cons, List.sum_cons]
      linarith [ih]
    · rw [List.filter_cons_of_neg hp, List.filter_cons_of_pos (by simp [hp])]
      simp only [List.map_cons, List.sum_cons]
      linarith [ih]

/-- Summing per-key filtered sums over a duplicate-free list of keys that
covers every sample recovers the total sum (the partition property behind
daily-to-annual aggregation). -/
theorem sum_over_keys (f : ℤ × ℚ → ℚ) :
    ∀ keys : List ℤ, keys.Nodup → ∀ samples : List (ℤ × ℚ),
      (∀ s ∈ samples, s.1 ∈ keys) →
      (keys.map (fun d =>
        ((samples.filter (fun s => decide (s.1 = d))).map f).sum)).sum =
        (samples.map f).sum := by
  intro keys
  induction keys with
  | nil =>
    intro _ samples hall
    have hs : samples = [] := by
      cases samples with
      | nil => rfl
      | cons a l => exact absurd (hall a (List.mem_cons_self a l)) (List.not_mem_nil a.1)
    subst hs
    simp
  | cons d ks ih =>
    intro hnd samples hall
    have hd_not_ks : d ∉ ks := (List.nodup_cons.mp hnd).1
    have hks_eq : ∀ k ∈ ks, samples.filter (fun s => decide (s.1 = k)) =
        (samples.filter (fun s => !decide (s.1 = d))).filter
          (fun s => decide (s.1 = k)) := by
      intro k hk
      rw [List.filter_filter]
      apply List.filter_congr
      intro a _
      have hkd : ¬ k = d := by
        rintro rfl
        exact hd_not_ks hk
      by_cases hak : a.1 = k
      · simp [hak, hkd]
      · simp [hak]
    have hih := ih (List.nodup_cons.mp hnd).2
      (samples.filter (fun s => !decide (s.1 = d)))
      (fun s hs => by
        obtain ⟨hs1, hs2⟩ := List.mem_filter.mp hs
        simp only [Bool.not_eq_true', decide_eq_false_iff_not] at hs2
        rcases List.mem_cons.mp (hall s hs1) with h | h
        · exact absurd h hs2
        · exact h)
    have hmapeq : ks.map (fun k =>
        ((samples.filter (fun s => decide (s.1 = k))).map f).sum) =
        ks.map (fun k =>
          (((samples.filter (fun s => !decide (s.1 = d))).filter
            (fun s => decide (s.1 = k))).map f).sum) :=
      List.map_congr_left (fun k hk => by rw [hks_eq k hk])
    have hsplit := sum_map_filter_split samples (fun s => decide (s.1 = d)) f
    rw [List.map_cons, List.sum_cons, hmapeq, hih]
    linarith [hsplit]

/-- The annual energy total is the flat per-sample sum. -/
theorem annual_eq_flat (l : List (ℤ × ℚ)) :
    annual_energy l = (l.map (fun s => sample_energy s.2)).sum := by
  unfold annual_energy daily_energy day_keys
  rw [List.map_map]
  have hcomp : (Prod.snd ∘ fun d => (d,
      ((l.filter (fun s => decide (s.1 = d))).map (fun s => sample_energy s.2)).sum)) =
      fun d => ((l.filter (fun s => decide (s.1 = d))).map
        (fun s => sample_energy s.2)).sum := rfl
  rw [hcomp]
  exact sum_over_keys (fun s => sample_energy s.2) (l.map Prod.fst).dedup
    (List.nodup_dedup _) l
    (fun s hs => List.mem_dedup.mpr (List.mem_map_of_mem Prod.fst hs))

/-- C5: the annual energy total equals the sum of the daily totals, which
equals the sum over all samples of power × (5/60) h, and the result is
invariant under permutation of the samples (order- and
grouping-independence of the pure summation). -/
theorem C5_energy_order_independence (samples samples2 : List (ℤ × ℚ))
    (hperm : samples.Perm samples2) :
    annual_energy samples = ((daily_energy samples).map Prod.snd).sum ∧
    annual_energy samples = (samples.map (fun s => sample_energy s.2)).sum ∧
    annual_energy samples2 = annual_energy samples := by
  refine ⟨rfl, annual_eq_flat samples, ?_⟩
  rw [annual_eq_flat samples, annual_eq_flat samples2]
  exact (hperm.map (fun s => sample_energy s.2)).sum_eq.symm

/-- Witness for C5 on a concrete three-sample series over two days and a
transposition of it. -/
theorem C5_energy_order_independence_witness :
    List.Perm [((0 : ℤ), (12 : ℚ)), (0, 24), (1, 36)]
      [((0 : ℤ), (24 : ℚ)), (0, 12), (1, 36)] ∧
    annual_energy [((0 : ℤ), (12 : ℚ)), (0, 24), (1, 36)] = 6 ∧
    annual_energy [((0 : ℤ), (24 : ℚ)), (0, 12), (1, 36)] =
      annual_energy [((0 : ℤ), (12 : ℚ)), (0, 24), (1, 36)] :=
  ⟨List.Perm.swap ((0 : ℤ), (24 : ℚ)) ((0 : ℤ), (12 : ℚ)) [((1 : ℤ), (36 : ℚ))],
    by norm_num [annual_energy, daily_energy, day_keys, sample_energy],
    (C5_energy_order_independence _ _
      (List.Perm.swap ((0 : ℤ), (24 : ℚ)) ((0 : ℤ), (12 : ℚ))
        [((1 : ℤ), (36 : ℚ))])).2.2⟩

/-- The modelled Model A transposition returns a nonnegative `poa_global`
whenever its irradiance inputs are nonnegative. -/
theorem get_total_irradiance_nonneg (st sa dni ghi dhi sz saz : ℝ)
    (hghi : 0 ≤ ghi) (hdhi : 0 ≤ dhi) :
    0 ≤ get_total_irradiance st sa dni ghi dhi sz saz := by
  have hc1 : Real.cos (radians st) ≤ 1 := Real.cos_le_one _
  have hc2 : -1 ≤ Real.cos (radians st) := Real.neg_one_le_cos _
  have h1 : (0 : ℝ) ≤ max 0 (dni * min 1 (max (-1)
      (Real.cos (radians sz) * Real.cos (radians st) +
        Real.sin (radians sz) * Real.sin (radians st) *
          Real.cos (radians (saz - sa))))) := le_max_left _ _
  have h2 : 0 ≤ dhi * (1 + Real.cos (radians st)) := mul_nonneg hdhi (by linarith)
  have h3 : 0 ≤ ghi * 0.25 * (1 - Real.cos (radians st)) :=
    mul_nonneg (mul_nonneg hghi (by norm_num)) (by linarith)
  unfold get_total_irradiance
  linarith

/-- C8: for every segment with tilt in [0°, 90°] and every sample with
nonnegative DNI, GHI, DHI and albedo, the plane-of-array irradiance of both
models is nonnegative: Model B's total POA (direct clipped at 0 plus diffuse
and reflected) and Model A's `poa_global`. -/
theorem C8_poa_nonneg (seg : RoofSegment) (s : WeatherSample) (sp : SolarPosition)
    (htilt0 : 0 ≤ seg.tilt) (htilt90 : seg.tilt ≤ 90)
    (hdni : 0 ≤ s.dni) (hghi : 0 ≤ s.ghi) (hdhi : 0 ≤ s.dhi) (halb : 0 ≤ s.albedo) :
    0 ≤ poa_total_osm seg s ∧ 0 ≤ Aurora.poa_irradiance seg s sp := by
  have hc1 : Real.cos (radians seg.tilt) ≤ 1 := Real.cos_le_one _
  have hc2 : -1 ≤ Real.cos (radians seg.tilt) := Real.neg_one_le_cos _
  constructor
  · have hdir : 0 ≤ poa_direct_osm seg s := le_max_left 0 _
    have hdif : 0 ≤ s.dhi * (1 + Real.cos (radians seg.tilt)) :=
      mul_nonneg hdhi (by linarith)
    have href : 0 ≤ s.ghi * s.albedo * (1 - Real.cos (radians seg.tilt)) :=
      mul_nonneg (mul_nonneg hghi halb) (by linarith)
    unfold poa_total_osm poa_diffuse_osm poa_reflected_osm
    linarith
  · unfold Aurora.poa_irradiance
    exact get_total_irradiance_nonneg seg.tilt seg.azimuth s.dni s.ghi s.dhi
      sp.apparent_zenith sp.azimuth hghi hdhi

/-- Witness for C8 at a concrete segment and sample with nonnegative
irradiance fields. -/
theorem C8_poa_nonneg_witness :
    (0 : ℝ) ≤ 5.6 ∧ (5.6 : ℝ) ≤ 90 ∧ (0 : ℝ) ≤ 600 ∧ (0 : ℝ) ≤ 500 ∧
    (0 : ℝ) ≤ 200 ∧ (0 : ℝ) ≤ 0.2 ∧
    0 ≤ poa_total_osm ⟨5.6, 319.88214, 32⟩
      ⟨600, 500, 200, 20, 0.2, 30, 180, 40, 55, 3⟩ ∧
    0 ≤ Aurora.poa_irradiance ⟨5.6, 319.88214, 32⟩
      ⟨600, 500, 200, 20, 0.2, 30, 180, 40, 55, 3⟩ ⟨25, 170⟩ := by
  refine ⟨by norm_num, by norm_num, by norm_num, by norm_num, by norm_num,
    by norm_num, ?_, ?_⟩
  · exact (C8_poa_nonneg ⟨5.6, 319.88214, 32⟩
      ⟨600, 500, 200, 20, 0.2, 30, 180, 40, 55, 3⟩ ⟨25, 170⟩
      (by norm_num) (by norm_num) (by norm_num) (by norm_num) (by norm_num)
      (by norm_num)).1
  · exact (C8_poa_nonneg ⟨5.6, 319.88214, 32⟩
      ⟨600, 500, 200, 20, 0.2, 30, 180, 40, 55, 3⟩ ⟨25, 170⟩
      (by norm_num) (by norm_num) (by norm_num) (by norm_num) (by norm_num)
      (by norm_num)).2

end SmartGrid
